import Mathlib

/-!
Shallow embedding of the `sbi` crate, a RISC-V SBI wrapper library.

Conventions used throughout:

* `usize` is modelled as `Nat` and `isize` as `Int`; where the source can
  overflow a machine word, the wrap is written explicitly as `% 2 ^ W`
  (release-profile wrapping semantics; the shift amount of `<<` is likewise
  masked `% W`, matching the RISC-V shift instructions).
* A Rust function that can panic is modelled as returning `Option`; `none`
  models the panic (`unwrap`, `unreachable!`, explicit `panic!` calls).
* The firmware side is not part of the crate.  Each `ecall` wrapper in
  `src/lib.rs` reads back the register pair `(a0, a1) = (error, value)`
  after the trap instruction; the embedding takes that pair as an explicit
  argument `ret : SbiRet` and models only the crate's own decoding logic.
-/

set_option linter.unusedVariables false

/-- The two registers read back after the `ecall` instruction: `a0` holds the
signed status word (`error: isize`), `a1` the unsigned value word
(`value: usize`). -/
structure SbiRet where
  error : Int
  value : Nat
deriving DecidableEq

/-- `SbiError` from `src/lib.rs`: `pub struct SbiError(Option<NonZeroIsize>)`.
The nine named constants hold `Some(-1)` through `Some(-9)`; the `None`
payload is the "unknown error" produced for non-negative codes. -/
structure SbiError where
  code : Option Int
deriving DecidableEq

/-- `SbiError::FAILED`. -/
def SbiError.FAILED : SbiError := ⟨some (-1)⟩

/-- `SbiError::NOT_SUPPORTED`. -/
def SbiError.NOT_SUPPORTED : SbiError := ⟨some (-2)⟩

/-- `SbiError::INVALID_PARAMETER`. -/
def SbiError.INVALID_PARAMETER : SbiError := ⟨some (-3)⟩

/-- `SbiError::DENIED`. -/
def SbiError.DENIED : SbiError := ⟨some (-4)⟩

/-- `SbiError::INVALID_ADDRESS`. -/
def SbiError.INVALID_ADDRESS : SbiError := ⟨some (-5)⟩

/-- `SbiError::ALREADY_AVAILABLE`. -/
def SbiError.ALREADY_AVAILABLE : SbiError := ⟨some (-6)⟩

/-- `SbiError::ALREADY_STARTED`. -/
def SbiError.ALREADY_STARTED : SbiError := ⟨some (-7)⟩

/-- `SbiError::ALREADY_STOPPED`. -/
def SbiError.ALREADY_STOPPED : SbiError := ⟨some (-8)⟩

/-- `SbiError::SHARED_MEMORY_UNAVAILABLE`. -/
def SbiError.SHARED_MEMORY_UNAVAILABLE : SbiError := ⟨some (-9)⟩

/-- `SbiError::new` from `src/lib.rs`:
negative codes are stored verbatim (`Some(NonZeroIsize::new_unchecked(n))`),
any other code becomes the code-less `Self(None)`.  A total function. -/
def SbiError.new (n : Int) : SbiError :=
  if n < 0 then ⟨some n⟩ else ⟨none⟩

/-- `ecall0` from `src/lib.rs`: after the trap,
`match error { 0 => Ok(value), e => Err(SbiError::new(e)) }`. -/
def ecall0 (extension_id function_id : Nat) (ret : SbiRet) :
    Except SbiError Nat :=
  if ret.error = 0 then .ok ret.value else .error (SbiError.new ret.error)

/-- `ecall1` from `src/lib.rs`; identical result decoding. -/
def ecall1 (arg extension_id function_id : Nat) (ret : SbiRet) :
    Except SbiError Nat :=
  if ret.error = 0 then .ok ret.value else .error (SbiError.new ret.error)

/-- `ecall2` from `src/lib.rs`; identical result decoding. -/
def ecall2 (arg0 arg1 extension_id function_id : Nat) (ret : SbiRet) :
    Except SbiError Nat :=
  if ret.error = 0 then .ok ret.value else .error (SbiError.new ret.error)

/-- `ecall3` from `src/lib.rs`; identical result decoding. -/
def ecall3 (arg0 arg1 arg2 extension_id function_id : Nat) (ret : SbiRet) :
    Except SbiError Nat :=
  if ret.error = 0 then .ok ret.value else .error (SbiError.new ret.error)

/-- `ecall4` from `src/lib.rs`; identical result decoding. -/
def ecall4 (arg0 arg1 arg2 arg3 extension_id function_id : Nat)
    (ret : SbiRet) : Except SbiError Nat :=
  if ret.error = 0 then .ok ret.value else .error (SbiError.new ret.error)

/-- `ecall5` from `src/lib.rs`; identical result decoding. -/
def ecall5 (arg0 arg1 arg2 arg3 arg4 extension_id function_id : Nat)
    (ret : SbiRet) : Except SbiError Nat :=
  if ret.error = 0 then .ok ret.value else .error (SbiError.new ret.error)

/-- `ecall6` from `src/lib.rs`; identical result decoding. -/
def ecall6 (arg0 arg1 arg2 arg3 arg4 arg5 extension_id function_id : Nat)
    (ret : SbiRet) : Except SbiError Nat :=
  if ret.error = 0 then .ok ret.value else .error (SbiError.new ret.error)

/-- `HartMask` from `src/lib.rs`: `{ base: usize, mask: usize }`. -/
structure HartMask where
  base : Nat
  mask : Nat
deriving DecidableEq

/-- `HartMask::new(base)`: given base, empty mask. -/
def HartMask.new (base : Nat) : HartMask := ⟨base, 0⟩

/-- `HartMask::from(hart_id)`: base = hart_id, mask = 1 (`from` is a Lean
keyword, hence the `fromId` spelling). -/
def HartMask.fromId (hart_id : Nat) : HartMask := ⟨hart_id, 1⟩

/-- `HartMask::with(hart_id)` (`with` is a Lean keyword, hence `withId`):
```text
if hart_id >= self.base && hart_id < (self.base + usize::BITS as usize) {
    self.mask |= 1 << (hart_id - self.base);
}
```
`W` is the native word width (`usize::BITS`: 64 on riscv64, 32 on riscv32).
Under release-profile semantics `self.base + usize::BITS` wraps at `2 ^ W`
and the shift amount is masked `% W`. -/
def HartMask.withId (W : Nat) (m : HartMask) (hart_id : Nat) : HartMask :=
  if m.base ≤ hart_id ∧ hart_id < (m.base + W) % 2 ^ W then
    { m with mask := m.mask ||| 1 <<< ((hart_id - m.base) % W) }
  else m

/-- `RestrictedRange<MIN, MAX>` from `src/lib.rs`: a `u32` newtype. -/
structure RestrictedRange (MIN MAX : Nat) where
  val : Nat
deriving DecidableEq

/-- `RestrictedRange::<MIN, MAX>::new(value)`:
`if value < MIN || value > MAX { panic!(..) } Self(value)`.
`none` models the construction panic. -/
def RestrictedRange.new (MIN MAX : Nat) (value : Nat) :
    Option (RestrictedRange MIN MAX) :=
  if value < MIN ∨ MAX < value then none else some ⟨value⟩

/-- `impl From<RestrictedRange<MIN, MAX>> for u32`: returns the stored value. -/
def RestrictedRange.u32_from {MIN MAX : Nat} (r : RestrictedRange MIN MAX) :
    Nat :=
  r.val

/-- `<u64 as CastRegisterValue>::hi_lo` from
`src/collaborative_processor_performance_control.rs`:
`((self >> 32) as usize, (self & 0xFFFF_FFFF) as usize)`.
On the 32-bit native word the `as usize` casts truncate at `2 ^ 32`
(on riscv64 they are the identity; both halves are below `2 ^ 32` anyway,
so the two targets agree). -/
def u64_hi_lo (v : Nat) : Nat × Nat :=
  ((v >>> 32) % 2 ^ 32, (v &&& 0xFFFFFFFF) % 2 ^ 32)

/-- `<u32 as CastRegisterValue>::hi_lo`: `(0, self as usize)`. -/
def u32_hi_lo (v : Nat) : Nat × Nat :=
  (0, v % 2 ^ 32)

/-- The caller-side recombination of a split 64-bit register value,
`(high << 32) | low`, performed in `u64` arithmetic. -/
def combine (high low : Nat) : Nat :=
  (high <<< 32) ||| low

/-- `ResetType` from `src/system_reset.rs`. -/
inductive ResetType where
  | Shutdown
  | ColdReboot
  | WarmReboot
  | PlatformSpecific (n : Nat)
deriving DecidableEq

/-- `ResetType::to_u32`: the platform-specific range is
`n.min(0x0FFFFFFF) + 0xF0000000` (the sum is at most `0xFFFFFFFF`, so `u32`
arithmetic never wraps here). -/
def ResetType.to_u32 : ResetType → Nat
  | .Shutdown => 0
  | .ColdReboot => 1
  | .WarmReboot => 2
  | .PlatformSpecific n => min n 0x0FFFFFFF + 0xF0000000

/-- `ResetReason` from `src/system_reset.rs`. -/
inductive ResetReason where
  | NoReason
  | SystemFailure
  | SbiSpecific (n : Nat)
  | PlatformSpecific (n : Nat)
deriving DecidableEq

/-- `ResetReason::to_u32`: SBI-specific values map into `0xE0000000..`,
platform-specific values into `0xF0000000..`, both clamped with `min`. -/
def ResetReason.to_u32 : ResetReason → Nat
  | .NoReason => 0
  | .SystemFailure => 1
  | .SbiSpecific n => min n 0x0FFFFFFF + 0xE0000000
  | .PlatformSpecific n => min n 0x0FFFFFFF + 0xF0000000

/-- `system_reset::EXTENSION_ID`. -/
def system_reset_EXTENSION_ID : Nat := 0x53525354

/-- `system_reset` from `src/system_reset.rs`:
`ecall2(kind.to_u32() as usize, reason.to_u32() as usize, EXTENSION_ID, 0)`;
an `Ok` result hits `unreachable!(..)` (modelled `none`), an `Err` is
forwarded. -/
def system_reset (kind : ResetType) (reason : ResetReason) (ret : SbiRet) :
    Option (Except SbiError Empty) :=
  match ecall2 kind.to_u32 reason.to_u32 system_reset_EXTENSION_ID 0 ret with
  | .ok _ => none
  | .error e => some (.error e)

/-- `performance_monitoring_unit::EXTENSION_ID`. -/
def pmu_EXTENSION_ID : Nat := 0x504D55

/-- `hart_state_management::EXTENSION_ID`. -/
def hsm_EXTENSION_ID : Nat := 0x48534D

/-- `pmu::num_counters` from `src/performance_monitoring_unit.rs`:
`unsafe { ecall0(EXTENSION_ID, 0).unwrap() }`.
`none` models the `unwrap` panic on an `Err` result. -/
def num_counters (ret : SbiRet) : Option Nat :=
  match ecall0 pmu_EXTENSION_ID 0 ret with
  | .ok v => some v
  | .error _ => none

/-- `HartState` from `src/hart_state_management.rs`. -/
inductive HartState where
  | Started
  | Stopped
  | StartRequestPending
  | StopRequestPending
  | Suspended
  | SuspendPending
  | ResumePending
deriving DecidableEq

/-- `HartState::from_usize`: values 0 through 6 map to the seven states; any
other value hits `unreachable!("invalid hart state returned by SBI: {}", n)`,
modelled as `none`. -/
def HartState.from_usize : Nat → Option HartState
  | 0 => some .Started
  | 1 => some .Stopped
  | 2 => some .StartRequestPending
  | 3 => some .StopRequestPending
  | 4 => some .Suspended
  | 5 => some .SuspendPending
  | 6 => some .ResumePending
  | _ => none

/-- `hsm::hart_state` from `src/hart_state_management.rs`:
`ecall1(hart_id, EXTENSION_ID, 2).map(HartState::from_usize)`; a panic inside
the map (unknown state word) propagates, modelled as `none`. -/
def hart_state (hart_id : Nat) (ret : SbiRet) :
    Option (Except SbiError HartState) :=
  match ecall1 hart_id hsm_EXTENSION_ID 2 ret with
  | .ok v =>
    match HartState.from_usize v with
    | some s => some (.ok s)
    | none => none
  | .error e => some (.error e)

/-- Claim C1: for every signed status word and unsigned value word produced by
the firmware call, each ecall wrapper (ecall0 through ecall6) returns
`Ok(value)` when the status is 0 and `Err(SbiError::new(status))` when the
status is nonzero; no status is silently swallowed. -/
theorem ecall_wrappers_decode_status
    (extension_id function_id arg0 arg1 arg2 arg3 arg4 arg5 : Nat)
    (ret : SbiRet) :
    (ret.error = 0 →
      ecall0 extension_id function_id ret = .ok ret.value ∧
      ecall1 arg0 extension_id function_id ret = .ok ret.value ∧
      ecall2 arg0 arg1 extension_id function_id ret = .ok ret.value ∧
      ecall3 arg0 arg1 arg2 extension_id function_id ret = .ok ret.value ∧
      ecall4 arg0 arg1 arg2 arg3 extension_id function_id ret
        = .ok ret.value ∧
      ecall5 arg0 arg1 arg2 arg3 arg4 extension_id function_id ret
        = .ok ret.value ∧
      ecall6 arg0 arg1 arg2 arg3 arg4 arg5 extension_id function_id ret
        = .ok ret.value) ∧
    (ret.error ≠ 0 →
      ecall0 extension_id function_id ret
        = .error (SbiError.new ret.error) ∧
      ecall1 arg0 extension_id function_id ret
        = .error (SbiError.new ret.error) ∧
      ecall2 arg0 arg1 extension_id function_id ret
        = .error (SbiError.new ret.error) ∧
      ecall3 arg0 arg1 arg2 extension_id function_id ret
        = .error (SbiError.new ret.error) ∧
      ecall4 arg0 arg1 arg2 arg3 extension_id function_id ret
        = .error (SbiError.new ret.error) ∧
      ecall5 arg0 arg1 arg2 arg3 arg4 extension_id function_id ret
        = .error (SbiError.new ret.error) ∧
      ecall6 arg0 arg1 arg2 arg3 arg4 arg5 extension_id function_id ret
        = .error (SbiError.new ret.error)) := by
  constructor <;> intro h <;>
    simp [ecall0, ecall1, ecall2, ecall3, ecall4, ecall5, ecall6, h]

/-- Claim C1 witness: a zero status yields `Ok(value)` and a nonzero status
yields the classified error, at concrete register values. -/
theorem ecall_wrappers_decode_status_witness :
    ecall0 0x10 0 ⟨0, 42⟩ = .ok 42 ∧
    ecall6 1 2 3 4 5 6 7 8 ⟨-3, 9⟩ = .error (SbiError.new (-3)) :=
  ⟨((ecall_wrappers_decode_status 0x10 0 1 2 3 4 5 6 ⟨0, 42⟩).1 rfl).1,
   ((ecall_wrappers_decode_status 7 8 1 2 3 4 5 6 ⟨-3, 9⟩).2
      (by norm_num)).2.2.2.2.2.2⟩

/-- Claim C2: for every negative status code outside the documented set
-1..=-9, `SbiError::new` is total (the embedding is a total function by
construction), retains the raw numeric code, and the resulting value is
distinct from every one of the nine named error constants. -/
theorem sbiError_new_unknown_negative (s : Int) (h : s ≤ -10) :
    (SbiError.new s).code = some s ∧
    SbiError.new s ≠ SbiError.FAILED ∧
    SbiError.new s ≠ SbiError.NOT_SUPPORTED ∧
    SbiError.new s ≠ SbiError.INVALID_PARAMETER ∧
    SbiError.new s ≠ SbiError.DENIED ∧
    SbiError.new s ≠ SbiError.INVALID_ADDRESS ∧
    SbiError.new s ≠ SbiError.ALREADY_AVAILABLE ∧
    SbiError.new s ≠ SbiError.ALREADY_STARTED ∧
    SbiError.new s ≠ SbiError.ALREADY_STOPPED ∧
    SbiError.new s ≠ SbiError.SHARED_MEMORY_UNAVAILABLE := by
  have hneg : s < 0 := by omega
  simp only [SbiError.new, if_pos hneg, SbiError.FAILED, SbiError.NOT_SUPPORTED,
    SbiError.INVALID_PARAMETER, SbiError.DENIED, SbiError.INVALID_ADDRESS,
    SbiError.ALREADY_AVAILABLE, SbiError.ALREADY_STARTED,
    SbiError.ALREADY_STOPPED, SbiError.SHARED_MEMORY_UNAVAILABLE, ne_eq,
    SbiError.mk.injEq, Option.some.injEq]
  refine ⟨trivial, ?_, ?_, ?_, ?_, ?_, ?_, ?_, ?_, ?_⟩ <;> omega

/-- Claim C2 witness: the undocumented code -10 is kept verbatim. -/
theorem sbiError_new_unknown_negative_witness :
    (SbiError.new (-10)).code = some (-10) ∧
    SbiError.new (-10) ≠ SbiError.FAILED :=
  ⟨(sbiError_new_unknown_negative (-10) (by norm_num)).1,
   (sbiError_new_unknown_negative (-10) (by norm_num)).2.1⟩

/-- Claim C3 counterexample: the claim as stated fails at
base = id = 2^64 - 64 on the 64-bit native word.  There
base ≤ id < base + WORD_BITS holds mathematically, so the claim requires bit
(id - base) = 0 of the mask to be set, yet the wrapping comparison
`hart_id < self.base + usize::BITS` (which wraps to 0) drops the update and
the mask is returned unchanged. -/
theorem hartMask_with_counterexample :
    (2 ^ 64 - 64 : Nat) ≤ 2 ^ 64 - 64 ∧
    (2 ^ 64 - 64 : Nat) < (2 ^ 64 - 64) + 64 ∧
    HartMask.withId 64 (HartMask.new (2 ^ 64 - 64)) (2 ^ 64 - 64) =
      HartMask.new (2 ^ 64 - 64) ∧
    ((HartMask.withId 64 (HartMask.new (2 ^ 64 - 64))
        (2 ^ 64 - 64)).mask).testBit ((2 ^ 64 - 64) - (2 ^ 64 - 64))
      = false := by
  refine ⟨Nat.le_refl _, by omega, ?_, ?_⟩ <;> decide

/-- Claim C3 (amended): `HartMask::with(id)` on any mask with base `b`
(in particular on `HartMask::new(b)`) sets bit (id - b) exactly when
b ≤ id < b + WORD_BITS **and the comparison bound b + WORD_BITS does not
overflow the native word**; in every other case — id < b, id ≥ b + WORD_BITS,
or b within WORD_BITS of the top of the address space (where the wrapped
bound makes the range empty) — the mask is returned completely unchanged, a
silent no-op, never an error.  Stated for the 64-bit native word. -/
theorem hartMask_with_range (base mask hart_id : Nat)
    (hb : base < 2 ^ 64) (hi : hart_id < 2 ^ 64) :
    (base ≤ hart_id → hart_id < base + 64 → base + 64 < 2 ^ 64 →
      HartMask.withId 64 ⟨base, mask⟩ hart_id =
        ⟨base, mask ||| 1 <<< (hart_id - base)⟩) ∧
    (hart_id < base ∨ base + 64 ≤ hart_id ∨ 2 ^ 64 ≤ base + 64 →
      HartMask.withId 64 ⟨base, mask⟩ hart_id = ⟨base, mask⟩) := by
  constructor
  · intro h1 h2 h3
    have hc : (⟨base, mask⟩ : HartMask).base ≤ hart_id ∧
        hart_id < ((⟨base, mask⟩ : HartMask).base + 64) % 2 ^ 64 := by
      refine ⟨h1, ?_⟩
      show hart_id < (base + 64) % 2 ^ 64
      rw [Nat.mod_eq_of_lt h3]
      exact h2
    rw [HartMask.withId, if_pos hc]
    have hlt : (hart_id - base) % 64 = hart_id - base :=
      Nat.mod_eq_of_lt (by omega)
    simp [hlt]
  · intro h
    have hc : ¬((⟨base, mask⟩ : HartMask).base ≤ hart_id ∧
        hart_id < ((⟨base, mask⟩ : HartMask).base + 64) % 2 ^ 64) := by
      show ¬(base ≤ hart_id ∧ hart_id < (base + 64) % 2 ^ 64)
      omega
    rw [HartMask.withId, if_neg hc]

/-- Claim C3 (amended) witness: an in-range id (base 8, id 10) sets bit 2 and
an out-of-range id (base 8, id 100) is a silent no-op. -/
theorem hartMask_with_range_witness :
    HartMask.withId 64 ⟨8, 0⟩ 10 = ⟨8, 1 <<< 2⟩ ∧
    HartMask.withId 64 ⟨8, 0⟩ 100 = ⟨8, 0⟩ :=
  ⟨by
    have h := (hartMask_with_range 8 0 10 (by norm_num) (by norm_num)).1
      (by norm_num) (by norm_num) (by norm_num)
    simpa using h,
   (hartMask_with_range 8 0 100 (by norm_num) (by norm_num)).2
     (by norm_num)⟩

/-- Claim C9: `with(id)` is idempotent on every `HartMask` and for every
native word width: applying it twice yields exactly the same (base, mask)
pair as applying it once (so in particular
`HartMask::from(id).with(id).with(id) = HartMask::from(id).with(id)`). -/
theorem hartMask_with_idempotent (W : Nat) (m : HartMask) (hart_id : Nat) :
    HartMask.withId W (HartMask.withId W m hart_id) hart_id =
      HartMask.withId W m hart_id := by
  by_cases h : m.base ≤ hart_id ∧ hart_id < (m.base + W) % 2 ^ W
  · simp [HartMask.withId, h.1, h.2, Nat.or_assoc, Nat.or_self]
  · simp [HartMask.withId, h]

/-- Helper: a 32-bit-aligned `or` of disjoint halves is an addition. -/
theorem shiftLeft32_or_eq_add (a b : Nat) (hb : b < 2 ^ 32) :
    (a <<< 32) ||| b = a <<< 32 + b := by
  apply Nat.eq_of_testBit_eq
  intro j
  have key : (a <<< 32 + b).testBit j =
      if j < 32 then b.testBit j else a.testBit (j - 32) := by
    rw [Nat.shiftLeft_eq, Nat.mul_comm]
    exact Nat.testBit_mul_pow_two_add a hb j
  have key0 : (a <<< 32).testBit j =
      if j < 32 then false else a.testBit (j - 32) := by
    have h00 := Nat.testBit_mul_pow_two_add a (b := 0) (i := 32)
      (by norm_num) j
    rw [Nat.add_zero] at h00
    rw [Nat.shiftLeft_eq, Nat.mul_comm, h00]
    rcases Nat.lt_or_ge j 32 with hj | hj <;>
      simp [hj, Nat.zero_testBit, Nat.not_lt.mpr]
  rw [Nat.testBit_or, key, key0]
  rcases Nat.lt_or_ge j 32 with hj | hj
  · simp only [if_pos hj, Bool.false_or]
  · have h0 : b.testBit j = false :=
      Nat.testBit_lt_two_pow
        (lt_of_lt_of_le hb (Nat.pow_le_pow_right (by norm_num) hj))
    simp only [if_neg (Nat.not_lt.mpr hj), h0, Bool.or_false]

/-- Claim C4: for every 64-bit logical register value `V`, splitting via the
`u64` `hi_lo` and recombining as `(high << 32) | low` yields `V` again; and
for every value, the `u32` `hi_lo` returns a high word equal to zero. -/
theorem hi_lo_roundtrip (v w : Nat) (hv : v < 2 ^ 64) :
    combine (u64_hi_lo v).1 (u64_hi_lo v).2 = v ∧ (u32_hi_lo w).1 = 0 := by
  refine ⟨?_, rfl⟩
  have hhi : v >>> 32 = v / 2 ^ 32 := Nat.shiftRight_eq_div_pow v 32
  have hdiv : v / 2 ^ 32 < 2 ^ 32 := by omega
  have hlo : v &&& 0xFFFFFFFF = v % 2 ^ 32 := by
    have : (0xFFFFFFFF : Nat) = 2 ^ 32 - 1 := by norm_num
    rw [this]
    exact Nat.and_pow_two_sub_one_eq_mod v 32
  have hmod : v % 2 ^ 32 < 2 ^ 32 := Nat.mod_lt v (by norm_num)
  unfold combine u64_hi_lo
  simp only [hhi, hlo, Nat.mod_eq_of_lt hdiv, Nat.mod_eq_of_lt hmod]
  rw [shiftLeft32_or_eq_add _ _ hmod, Nat.shiftLeft_eq]
  omega

/-- Claim C4 witness: a concrete 64-bit value round-trips and the `u32`
split has a zero high word. -/
theorem hi_lo_roundtrip_witness :
    combine (u64_hi_lo 0xABCD12345678DEF0).1 (u64_hi_lo 0xABCD12345678DEF0).2
      = 0xABCD12345678DEF0 ∧ (u32_hi_lo 7).1 = 0 :=
  hi_lo_roundtrip 0xABCD12345678DEF0 7 (by norm_num)

/-- Claim C5: `RestrictedRange::<MIN, MAX>::new(v)` panics (modelled `none`)
exactly when `v < MIN` or `v > MAX`; for every `v` in `[MIN, MAX]` it
succeeds and the constructed value converts back via `u32::from` to exactly
`v`. -/
theorem restrictedRange_new_spec (MIN MAX value : Nat) :
    (RestrictedRange.new MIN MAX value = none ↔ value < MIN ∨ MAX < value) ∧
    (MIN ≤ value → value ≤ MAX →
      ∃ r : RestrictedRange MIN MAX,
        RestrictedRange.new MIN MAX value = some r ∧ r.u32_from = value) := by
  constructor
  · unfold RestrictedRange.new
    split <;> simp_all
  · intro h1 h2
    refine ⟨⟨value⟩, ?_, rfl⟩
    unfold RestrictedRange.new
    rw [if_neg (by omega)]

/-- Claim C5 witness: `new 3` on the range `[2, 5]` succeeds and converts
back to 3. -/
theorem restrictedRange_new_spec_witness :
    ∃ r : RestrictedRange 2 5,
      RestrictedRange.new 2 5 3 = some r ∧ r.u32_from = 3 :=
  (restrictedRange_new_spec 2 5 3).2 (by norm_num) (by norm_num)

/-- Claim C6: the platform- and SBI-specific reset encodings never fail and
silently saturate: any `n` above `0x0FFFFFFF` is clamped to `0x0FFFFFFF`
before the range offset (`0xF0000000` or `0xE0000000`) is added.  The
encoders are total functions of the embedding, so they cannot fail. -/
theorem reset_encoding_saturates (n : Nat) (h : n < 2 ^ 32) :
    (ResetType.PlatformSpecific n).to_u32 = min n 0x0FFFFFFF + 0xF0000000 ∧
    (ResetReason.SbiSpecific n).to_u32 = min n 0x0FFFFFFF + 0xE0000000 ∧
    (ResetReason.PlatformSpecific n).to_u32 = min n 0x0FFFFFFF + 0xF0000000 ∧
    (0x0FFFFFFF < n →
      (ResetType.PlatformSpecific n).to_u32 = 0xFFFFFFFF ∧
      (ResetReason.SbiSpecific n).to_u32 = 0xEFFFFFFF ∧
      (ResetReason.PlatformSpecific n).to_u32 = 0xFFFFFFFF) := by
  refine ⟨rfl, rfl, rfl, fun hn => ?_⟩
  have hmin : min n 0x0FFFFFFF = 0x0FFFFFFF := by omega
  refine ⟨?_, ?_, ?_⟩ <;>
    simp [ResetType.to_u32, ResetReason.to_u32, hmin]

/-- Claim C6 witness: `n = 0x10000000` saturates to the boundary in all three
specific encodings. -/
theorem reset_encoding_saturates_witness :
    (ResetType.PlatformSpecific 0x10000000).to_u32 = 0xFFFFFFFF ∧
    (ResetReason.SbiSpecific 0x10000000).to_u32 = 0xEFFFFFFF ∧
    (ResetReason.PlatformSpecific 0x10000000).to_u32 = 0xFFFFFFFF :=
  (reset_encoding_saturates 0x10000000 (by norm_num)).2.2.2 (by norm_num)

/-- Claim C7: for every `ResetType` and `ResetReason` argument pair,
`system_reset` never returns a success value: a nonzero status yields the
classified error, and a zero (success) status hits
`unreachable!("SBI returned Ok after a system reset call")`, modelled as
`none` — a fatal diagnostic rather than proceeding as if it succeeded. -/
theorem system_reset_never_ok (kind : ResetType) (reason : ResetReason)
    (ret : SbiRet) :
    (∀ v : Empty, system_reset kind reason ret ≠ some (.ok v)) ∧
    (ret.error = 0 → system_reset kind reason ret = none) ∧
    (ret.error ≠ 0 →
      system_reset kind reason ret
        = some (.error (SbiError.new ret.error))) := by
  refine ⟨fun v => v.elim, fun h => ?_, fun h => ?_⟩ <;>
    simp [system_reset, ecall2, h]

/-- Claim C7 witness: a zero status is a modelled panic; status -2 is
forwarded as `NOT_SUPPORTED`'s raw form. -/
theorem system_reset_never_ok_witness :
    system_reset .Shutdown .NoReason ⟨0, 0⟩ = none ∧
    system_reset .Shutdown .NoReason ⟨-2, 0⟩
      = some (.error (SbiError.new (-2))) :=
  ⟨(system_reset_never_ok .Shutdown .NoReason ⟨0, 0⟩).2.1 rfl,
   (system_reset_never_ok .Shutdown .NoReason ⟨-2, 0⟩).2.2 (by norm_num)⟩

/-- Helper: state words 0 through 6 decode to a `HartState`. -/
theorem hartState_from_usize_lt_seven (v : Nat) (h : v < 7) :
    ∃ s, HartState.from_usize v = some s := by
  interval_cases v <;> exact ⟨_, rfl⟩

/-- Helper: state words of 7 or more hit the `unreachable!` arm. -/
theorem hartState_from_usize_ge_seven (v : Nat) (h : 7 ≤ v) :
    HartState.from_usize v = none := by
  obtain ⟨n, rfl⟩ : ∃ n, v = n + 7 := ⟨v - 7, by omega⟩
  rfl

/-- Claim C8 counterexample: the claim as stated is false on the code.
`num_counters` calls `.unwrap()` on the transport result and so panics
(modelled `none`) when the firmware returns status -1, and `hart_state`
panics via `HartState::from_usize`'s `unreachable!` arm when the firmware
reports success with state word 7 — neither handles every firmware-returned
word by returning a typed error. -/
theorem fallible_ops_counterexample :
    num_counters ⟨-1, 0⟩ = none ∧ hart_state 0 ⟨0, 7⟩ = none := by
  constructor <;> rfl

/-- Claim C8 (amended): fallible public operations report firmware failure by
returning a typed error value, with two exceptions visible in the cited
code: `num_counters` unwraps the transport result and panics (modelled
`none`) on every nonzero status, and `hart_state`, which does return a typed
error for every nonzero status, panics when the firmware reports success
with a state word outside 0..=6. -/
theorem fallible_ops_panic_behavior (hart_id : Nat) (ret : SbiRet) :
    (ret.error = 0 → num_counters ret = some ret.value) ∧
    (ret.error ≠ 0 → num_counters ret = none) ∧
    (ret.error ≠ 0 →
      hart_state hart_id ret = some (.error (SbiError.new ret.error))) ∧
    (ret.error = 0 → ret.value < 7 →
      ∃ s, hart_state hart_id ret = some (.ok s)) ∧
    (ret.error = 0 → 7 ≤ ret.value → hart_state hart_id ret = none) := by
  refine ⟨fun h => ?_, fun h => ?_, fun h => ?_, fun h hv => ?_,
    fun h hv => ?_⟩
  · simp [num_counters, ecall0, h]
  · simp [num_counters, ecall0, h]
  · simp [hart_state, ecall1, h]
  · obtain ⟨s, hs⟩ := hartState_from_usize_lt_seven ret.value hv
    exact ⟨s, by simp [hart_state, ecall1, h, hs]⟩
  · simp [hart_state, ecall1, h, hartState_from_usize_ge_seven ret.value hv]

/-- Claim C8 (amended) witness: success status returns the counter count;
a nonzero status gives `hart_state` a typed error. -/
theorem fallible_ops_panic_behavior_witness :
    num_counters ⟨0, 5⟩ = some 5 ∧
    hart_state 3 ⟨-3, 0⟩ = some (.error (SbiError.new (-3))) :=
  ⟨(fallible_ops_panic_behavior 3 ⟨0, 5⟩).1 rfl,
   (fallible_ops_panic_behavior 3 ⟨-3, 0⟩).2.2.1 (by norm_num)⟩

/-- Claim C10: for every positive status word the ecall wrappers return
`Err`, but `SbiError::new` does not retain the code: all non-negative
statuses collapse into the single code-less unknown-error value
`SbiError(None)`, which also compares unequal to each of the nine named
error constants. -/
theorem sbiError_nonneg_collapse (s s1 s2 : Int)
    (extension_id function_id arg0 arg1 arg2 arg3 arg4 arg5 value : Nat) :
    (0 < s →
      ecall0 extension_id function_id ⟨s, value⟩
        = .error (SbiError.new s) ∧
      ecall1 arg0 extension_id function_id ⟨s, value⟩
        = .error (SbiError.new s) ∧
      ecall2 arg0 arg1 extension_id function_id ⟨s, value⟩
        = .error (SbiError.new s) ∧
      ecall3 arg0 arg1 arg2 extension_id function_id ⟨s, value⟩
        = .error (SbiError.new s) ∧
      ecall4 arg0 arg1 arg2 arg3 extension_id function_id ⟨s, value⟩
        = .error (SbiError.new s) ∧
      ecall5 arg0 arg1 arg2 arg3 arg4 extension_id function_id ⟨s, value⟩
        = .error (SbiError.new s) ∧
      ecall6 arg0 arg1 arg2 arg3 arg4 arg5 extension_id function_id
        ⟨s, value⟩ = .error (SbiError.new s)) ∧
    (0 ≤ s1 → 0 ≤ s2 → SbiError.new s1 = SbiError.new s2) ∧
    (0 ≤ s →
      (SbiError.new s).code = none ∧
      SbiError.new s ≠ SbiError.FAILED ∧
      SbiError.new s ≠ SbiError.NOT_SUPPORTED ∧
      SbiError.new s ≠ SbiError.INVALID_PARAMETER ∧
      SbiError.new s ≠ SbiError.DENIED ∧
      SbiError.new s ≠ SbiError.INVALID_ADDRESS ∧
      SbiError.new s ≠ SbiError.ALREADY_AVAILABLE ∧
      SbiError.new s ≠ SbiError.ALREADY_STARTED ∧
      SbiError.new s ≠ SbiError.ALREADY_STOPPED ∧
      SbiError.new s ≠ SbiError.SHARED_MEMORY_UNAVAILABLE) := by
  refine ⟨fun h => ?_, fun h1 h2 => ?_, fun h => ?_⟩
  · have hne : ¬(s = 0) := by omega
    simp [ecall0, ecall1, ecall2, ecall3, ecall4, ecall5, ecall6, hne]
  · simp [SbiError.new, Int.not_lt.mpr h1, Int.not_lt.mpr h2]
  · simp only [SbiError.new, if_neg (Int.not_lt.mpr h), SbiError.FAILED,
      SbiError.NOT_SUPPORTED, SbiError.INVALID_PARAMETER, SbiError.DENIED,
      SbiError.INVALID_ADDRESS, SbiError.ALREADY_AVAILABLE,
      SbiError.ALREADY_STARTED, SbiError.ALREADY_STOPPED,
      SbiError.SHARED_MEMORY_UNAVAILABLE, ne_eq, SbiError.mk.injEq]
    simp

/-- Claim C10 witness: statuses 0 and 7 produce the same unknown error, and
`ecall0` still returns `Err` for the positive status 7. -/
theorem sbiError_nonneg_collapse_witness :
    SbiError.new 0 = SbiError.new 7 ∧
    ecall0 1 2 ⟨7, 9⟩ = .error (SbiError.new 7) :=
  ⟨(sbiError_nonneg_collapse 7 0 7 1 2 0 0 0 0 0 0 9).2.1 (by norm_num)
      (by norm_num),
   ((sbiError_nonneg_collapse 7 0 7 1 2 0 0 0 0 0 0 9).1 (by norm_num)).1⟩
